import Mathlib

/-!
Verification of the latitude-rs streaming response decoder against its
specification.  The definitions below are a shallow embedding of the
repository source (src/lib.rs, src/error.rs, src/models/*.rs): pure Rust
functions become Lean functions, the background SSE decode loop becomes a
function from the decoded item sequence to the list of events pushed into
the output channel, and fallible code returns Option/Except.  Machine
integers (u64, usize, u16 status codes) are modelled as Nat; none of the
claims involve overflow.
-/

namespace Latitude

/-! ## JSON values

Model of the JSON data handled by serde_json at the decode boundary.
Numbers are restricted to integer numerals: every numeric field in the
event payload model (token counts) is an unsigned integer, and no claim
involves a fractional or exponent-form numeral.  Object fields are kept
in source order; lookups take the first occurrence of a key.
-/

inductive Json where
  | null : Json
  | bool (b : Bool) : Json
  | num (n : Int) : Json
  | str (s : String) : Json
  | arr (elems : List Json) : Json
  | obj (fields : List (String × Json)) : Json
deriving Repr

/-- First value bound to key `k` in an object; `none` on other JSON shapes. -/
def jlookup (j : Json) (k : String) : Option Json :=
  match j with
  | .obj fields => go fields
  | _ => none
where
  go : List (String × Json) → Option Json
    | [] => none
    | (k2, v) :: rest => if k2 = k then some v else go rest

def asStr : Json → Option String
  | .str s => some s
  | _ => none

def asBool : Json → Option Bool
  | .bool b => some b
  | _ => none

/-- serde deserialization of a `usize` field: integer JSON number, nonnegative. -/
def asNat : Json → Option Nat
  | .num n => if n < 0 then none else some n.toNat
  | _ => none

/-! ## JSON text parsing

Fuel-based recursive-descent parser for the JSON text grammar, standing in
for the text front end of `serde_json::from_slice`.  Restrictions (all
unreachable by the event payloads of this API): numerals must be integers,
and a `\u` escape must denote a Unicode scalar value (surrogate pairs are
rejected rather than combined).
-/

def isWs (c : Char) : Bool :=
  c = ' ' || c = '\n' || c = '\t' || c = '\r'

def skipWs : List Char → List Char
  | [] => []
  | c :: cs => if isWs c then skipWs cs else c :: cs

def hexVal (c : Char) : Option Nat :=
  if '0' ≤ c ∧ c ≤ '9' then some (c.toNat - '0'.toNat)
  else if 'a' ≤ c ∧ c ≤ 'f' then some (c.toNat - 'a'.toNat + 10)
  else if 'A' ≤ c ∧ c ≤ 'F' then some (c.toNat - 'A'.toNat + 10)
  else none

def hex4 : List Char → Option (Nat × List Char)
  | a :: b :: c :: d :: rest =>
    match hexVal a, hexVal b, hexVal c, hexVal d with
    | some x, some y, some z, some w => some ((((x * 16 + y) * 16 + z) * 16 + w), rest)
    | _, _, _, _ => none
  | _ => none

/-- Simple (single-character) string escapes of JSON. -/
def escChar (c : Char) : Option Char :=
  if c = '"' then some '"'
  else if c = '\\' then some '\\'
  else if c = '/' then some '/'
  else if c = 'n' then some '\n'
  else if c = 't' then some '\t'
  else if c = 'r' then some '\r'
  else if c = 'b' then some '\x08'
  else if c = 'f' then some '\x0c'
  else none

/-- Lex the remainder of a JSON string literal (the opening quote is already
consumed); returns the decoded string and the input after the closing quote.
Raw control characters (below 0x20) are invalid inside a JSON string. -/
def lexStr : Nat → List Char → Option (String × List Char)
  | 0, _ => none
  | _, [] => none
  | fuel + 1, c :: cs =>
    if c = '"' then some ("", cs)
    else if c = '\\' then
      match cs with
      | [] => none
      | e :: cs2 =>
        if e = 'u' then
          match hex4 cs2 with
          | some (n, cs3) =>
            if n.isValidChar then
              (lexStr fuel cs3).map (fun p => (String.mk (Char.ofNat n :: p.1.data), p.2))
            else none
          | none => none
        else
          match escChar e with
          | some ch => (lexStr fuel cs2).map (fun p => (String.mk (ch :: p.1.data), p.2))
          | none => none
    else if c.toNat < 32 then none
    else (lexStr fuel cs).map (fun p => (String.mk (c :: p.1.data), p.2))

def isDigitCh (c : Char) : Bool := '0' ≤ c && c ≤ '9'

def digitsToNat (ds : List Char) : Nat :=
  ds.foldl (fun a c => a * 10 + (c.toNat - '0'.toNat)) 0

/-- Split off the longest leading run of decimal digits. -/
def spanDigits : List Char → List Char × List Char
  | [] => ([], [])
  | c :: cs =>
    if isDigitCh c then
      let p := spanDigits cs
      (c :: p.1, p.2)
    else ([], c :: cs)

/-- Parse an integer JSON numeral (optional minus sign, no leading zeros,
no fraction or exponent part). -/
def lexNum (cs : List Char) : Option (Int × List Char) :=
  let (neg, cs1) :=
    match cs with
    | '-' :: rest => (true, rest)
    | _ => (false, cs)
  match spanDigits cs1 with
  | ([], _) => none
  | (d :: ds, rest) =>
    if d = '0' ∧ ds ≠ [] then none
    else
      match rest with
      | '.' :: _ => none
      | 'e' :: _ => none
      | 'E' :: _ => none
      | _ =>
        let n : Int := Int.ofNat (digitsToNat (d :: ds))
        some (if neg then -n else n, rest)

def lbrace : Char := '\x7b'
def rbrace : Char := '\x7d'

mutual

/-- Parse one JSON value at the head of the input (leading whitespace already
skipped); returns the value and the rest of the input. -/
def parseVal : Nat → List Char → Option (Json × List Char)
  | 0, _ => none
  | _, [] => none
  | fuel + 1, c :: cs =>
    if c = '"' then (lexStr fuel cs).map (fun p => (Json.str p.1, p.2))
    else if c = '[' then
      match skipWs cs with
      | ']' :: rest => some (Json.arr [], rest)
      | cs2 => (parseElems fuel cs2).map (fun p => (Json.arr p.1, p.2))
    else if c = lbrace then
      match skipWs cs with
      | c2 :: rest =>
        if c2 = rbrace then some (Json.obj [], rest)
        else (parseFields fuel (c2 :: rest)).map (fun p => (Json.obj p.1, p.2))
      | [] => none
    else if c = 't' then
      match cs with
      | 'r' :: 'u' :: 'e' :: rest => some (Json.bool true, rest)
      | _ => none
    else if c = 'f' then
      match cs with
      | 'a' :: 'l' :: 's' :: 'e' :: rest => some (Json.bool false, rest)
      | _ => none
    else if c = 'n' then
      match cs with
      | 'u' :: 'l' :: 'l' :: rest => some (Json.null, rest)
      | _ => none
    else (lexNum (c :: cs)).map (fun p => (Json.num p.1, p.2))

/-- Parse a nonempty comma-separated element list and the closing bracket. -/
def parseElems : Nat → List Char → Option (List Json × List Char)
  | 0, _ => none
  | fuel + 1, cs =>
    match parseVal fuel cs with
    | none => none
    | some (v, r1) =>
      match skipWs r1 with
      | ',' :: r2 => (parseElems fuel (skipWs r2)).map (fun p => (v :: p.1, p.2))
      | ']' :: r2 => some ([v], r2)
      | _ => none

/-- Parse a nonempty comma-separated member list and the closing brace. -/
def parseFields : Nat → List Char → Option (List (String × Json) × List Char)
  | 0, _ => none
  | _, [] => none
  | fuel + 1, c :: cs =>
    if c = '"' then
      match lexStr fuel cs with
      | none => none
      | some (k, r1) =>
        match skipWs r1 with
        | ':' :: r2 =>
          match parseVal fuel (skipWs r2) with
          | none => none
          | some (v, r3) =>
            match skipWs r3 with
            | c2 :: r4 =>
              if c2 = ',' then
                (parseFields fuel (skipWs r4)).map (fun p => ((k, v) :: p.1, p.2))
              else if c2 = rbrace then some ([(k, v)], r4)
              else none
            | [] => none
        | _ => none
    else none

end

/-- Parse an entire JSON document: one value, with only whitespace around it
(the whole-input requirement of `serde_json::from_slice`). -/
def jsonParse (s : String) : Option Json :=
  match parseVal (s.length + 2) (skipWs s.data) with
  | some (v, rest) => if skipWs rest = [] then some v else none
  | none => none

/-! ## Event payload model (src/models/event.rs, src/models/message.rs)

Each Rust struct or enum becomes a Lean structure or inductive with the
same fields; each gets a deserializer function mirroring the serde-derived
`Deserialize` impl: required fields must be present with the right shape,
`Option` fields read as `none` when the key is absent or bound to `null`,
unknown keys are ignored, wire names follow the serde rename attributes
(camelCase fields, kebab-case enum tags, lowercase roles).
-/

/-- A `uuid::Uuid` is its 128-bit value; overall parsing validates the text. -/
abbrev Uuid := Nat

/-- The `uuid` crate text parser as used by serde: hyphenated 8-4-4-4-12 form
or simple 32-hex-digit form (the urn/braced forms it also accepts are never
produced by this API and are not modelled). -/
def parse_uuid (s : String) : Option Uuid :=
  match splitDash s.data with
  | [a] => if a.length = 32 then hexFold a else none
  | [a, b, c, d, e] =>
    if a.length = 8 ∧ b.length = 4 ∧ c.length = 4 ∧ d.length = 4 ∧ e.length = 12 then
      hexFold (a ++ b ++ c ++ d ++ e)
    else none
  | _ => none
where
  splitDash : List Char → List (List Char)
    | [] => [[]]
    | c :: cs =>
      if c = '-' then [] :: splitDash cs
      else
        match splitDash cs with
        | [] => [[c]]
        | g :: gs => (c :: g) :: gs
  hexFold : List Char → Option Nat
    | [] => some 0
    | c :: cs =>
      match hexVal c, hexFold cs with
      | some v, some rest => some (v * 16 ^ cs.length + rest)
      | _, _ => none

/-- Model of chrono `DateTime<Utc>`: carries the RFC 3339 source text,
admitted when it has the RFC 3339 shape.  chrono additionally rejects
calendar-invalid day-of-month combinations; no claim involves timestamps,
so that final refinement is not modelled. -/
structure DateTimeUtc where
  raw : String
deriving Repr

def allDigits (cs : List Char) : Bool := cs.all isDigitCh

/-- Offset tail of an RFC 3339 date-time: `Z` or `±hh:mm`. -/
def tzShape (cs : List Char) : Bool :=
  match cs with
  | [z] => z = 'Z' || z = 'z'
  | [sgn, h1, h2, ':', m1, m2] =>
    (sgn = '+' || sgn = '-') && allDigits [h1, h2, m1, m2]
      && digitsToNat [h1, h2] < 24 && digitsToNat [m1, m2] < 60
  | _ => false

/-- Fractional-seconds-and-offset tail of an RFC 3339 date-time. -/
def fracTzShape (cs : List Char) : Bool :=
  match cs with
  | '.' :: rest =>
    match spanDigits rest with
    | ([], _) => false
    | (_ :: _, after) => tzShape after
  | _ => tzShape cs

def isRfc3339 (s : String) : Bool :=
  match s.data with
  | y1 :: y2 :: y3 :: y4 :: '-' :: mo1 :: mo2 :: '-' :: d1 :: d2 :: t
      :: h1 :: h2 :: ':' :: mi1 :: mi2 :: ':' :: s1 :: s2 :: rest =>
    allDigits [y1, y2, y3, y4, mo1, mo2, d1, d2, h1, h2, mi1, mi2, s1, s2]
      && (t = 'T' || t = 't')
      && 1 ≤ digitsToNat [mo1, mo2] && digitsToNat [mo1, mo2] ≤ 12
      && 1 ≤ digitsToNat [d1, d2] && digitsToNat [d1, d2] ≤ 31
      && digitsToNat [h1, h2] < 24 && digitsToNat [mi1, mi2] < 60
      && digitsToNat [s1, s2] ≤ 60
      && fracTzShape rest
  | _ => false

def deserDateTime (j : Json) : Option DateTimeUtc :=
  match j with
  | .str s => if isRfc3339 s then some ⟨s⟩ else none
  | _ => none

/-- message.rs `Role`, serde `rename_all = "lowercase"`. -/
inductive Role where
  | System
  | Assistant
  | User
deriving DecidableEq, Repr

def deserRole (j : Json) : Option Role :=
  match j with
  | .str s =>
    if s = "system" then some .System
    else if s = "assistant" then some .Assistant
    else if s = "user" then some .User
    else none
  | _ => none

/-- event.rs `Config`. -/
structure Config where
  provider : String
  model : String
deriving DecidableEq, Repr

def deserConfig (j : Json) : Option Config := do
  let provider ← (jlookup j "provider").bind asStr
  let model ← (jlookup j "model").bind asStr
  pure ⟨provider, model⟩

/-- event.rs `ToolCall` (no rename attribute: wire names are the field names). -/
structure ToolCall where
  id : String
  name : String
  arguments : Json
deriving Repr

def deserToolCall (j : Json) : Option ToolCall := do
  let id ← (jlookup j "id").bind asStr
  let name ← (jlookup j "name").bind asStr
  let arguments ← jlookup j "arguments"
  pure ⟨id, name, arguments⟩

def deserToolCalls (j : Json) : Option (List ToolCall) :=
  match j with
  | .arr xs => xs.mapM deserToolCall
  | _ => none

/-- serde treatment of an `Option` field: absent key or `null` value reads as
`none`; any other value must parse. -/
def jlookupOpt (j : Json) (k : String) (p : Json → Option α) : Option (Option α) :=
  match jlookup j k with
  | none => some none
  | some .null => some none
  | some v => (p v).map some

/-- event.rs `Message` (camelCase: `role`, `toolCalls`, `content`). -/
structure Message where
  role : Role
  tool_calls : Option (List ToolCall)
  content : String
deriving Repr

def deserMessage (j : Json) : Option Message := do
  let role ← (jlookup j "role").bind deserRole
  let tool_calls ← jlookupOpt j "toolCalls" deserToolCalls
  let content ← (jlookup j "content").bind asStr
  pure ⟨role, tool_calls, content⟩

def deserMessages (j : Json) : Option (List Message) :=
  match j with
  | .arr xs => xs.mapM deserMessage
  | _ => none

/-- event.rs `Usage` (camelCase, `usize` fields). -/
structure Usage where
  prompt_tokens : Nat
  completion_tokens : Nat
  total_tokens : Nat
deriving DecidableEq, Repr

def deserUsage (j : Json) : Option Usage := do
  let p ← (jlookup j "promptTokens").bind asNat
  let c ← (jlookup j "completionTokens").bind asNat
  let t ← (jlookup j "totalTokens").bind asNat
  pure ⟨p, c, t⟩

/-- event.rs `Response` (camelCase). -/
structure Response where
  stream_type : Option String
  document_log_uuid : Option String
  text : String
  tool_calls : Option (List ToolCall)
  usage : Usage
deriving Repr

def deserResponse (j : Json) : Option Response := do
  let stream_type ← jlookupOpt j "streamType" asStr
  let document_log_uuid ← jlookupOpt j "documentLogUuid" asStr
  let text ← (jlookup j "text").bind asStr
  let tool_calls ← jlookupOpt j "toolCalls" deserToolCalls
  let usage ← (jlookup j "usage").bind deserUsage
  pure ⟨stream_type, document_log_uuid, text, tool_calls, usage⟩

/-- event.rs `ChainStep` (camelCase). -/
structure ChainStep where
  is_last_step : Bool
  config : Config
  messages : List Message
  uuid : Uuid
deriving Repr

def deserChainStep (j : Json) : Option ChainStep := do
  let is_last_step ← (jlookup j "isLastStep").bind asBool
  let config ← (jlookup j "config").bind deserConfig
  let messages ← (jlookup j "messages").bind deserMessages
  let uuid ← ((jlookup j "uuid").bind asStr).bind parse_uuid
  pure ⟨is_last_step, config, messages, uuid⟩

/-- event.rs `ChainStepComplete` (camelCase; its `uuid` field is a plain
string in the source, not a parsed Uuid). -/
structure ChainStepComplete where
  response : Response
  uuid : String
deriving Repr

def deserChainStepComplete (j : Json) : Option ChainStepComplete := do
  let response ← (jlookup j "response").bind deserResponse
  let uuid ← (jlookup j "uuid").bind asStr
  pure ⟨response, uuid⟩

/-- event.rs `ChainComplete` (no rename attribute; all field names are single
words, so the wire names coincide). -/
structure ChainComplete where
  config : Config
  response : Response
  messages : List Message
deriving Repr

def deserChainComplete (j : Json) : Option ChainComplete := do
  let config ← (jlookup j "config").bind deserConfig
  let response ← (jlookup j "response").bind deserResponse
  let messages ← (jlookup j "messages").bind deserMessages
  pure ⟨config, response, messages⟩

/-- event.rs `LatitudeEventType`, serde internally tagged by `type` with
kebab-case variant names. -/
inductive LatitudeEventType where
  | ChainStep (s : ChainStep)
  | ChainStepComplete (s : ChainStepComplete)
  | ChainComplete (s : ChainComplete)
deriving Repr

def deserLatitudeEventType (j : Json) : Option LatitudeEventType := do
  let tag ← (jlookup j "type").bind asStr
  if tag = "chain-step" then (deserChainStep j).map .ChainStep
  else if tag = "chain-step-complete" then (deserChainStepComplete j).map .ChainStepComplete
  else if tag = "chain-complete" then (deserChainComplete j).map .ChainComplete
  else none

/-- event.rs `LatitudeEvent`: a single flattened `event_type` field, so it
deserializes from the same object as its inner tagged union. -/
structure LatitudeEvent where
  event_type : LatitudeEventType
deriving Repr

def deserLatitudeEvent (j : Json) : Option LatitudeEvent :=
  (deserLatitudeEventType j).map (fun t => ⟨t⟩)

/-- event.rs `TextDelta` (camelCase). -/
structure TextDelta where
  text_delta : String
deriving DecidableEq, Repr

def deserTextDelta (j : Json) : Option TextDelta := do
  let text_delta ← (jlookup j "textDelta").bind asStr
  pure ⟨text_delta⟩

/-- event.rs `ToolCallEvent` (camelCase). -/
structure ToolCallEvent where
  tool_call_id : String
  tool_name : String
  args : Json
deriving Repr

def deserToolCallEvent (j : Json) : Option ToolCallEvent := do
  let tool_call_id ← (jlookup j "toolCallId").bind asStr
  let tool_name ← (jlookup j "toolName").bind asStr
  let args ← jlookup j "args"
  pure ⟨tool_call_id, tool_name, args⟩

/-- event.rs `ToolResultEvent` (camelCase). -/
structure ToolResultEvent where
  tool_call_id : String
  tool_name : String
  result : Json
deriving Repr

def deserToolResultEvent (j : Json) : Option ToolResultEvent := do
  let tool_call_id ← (jlookup j "toolCallId").bind asStr
  let tool_name ← (jlookup j "toolName").bind asStr
  let result ← jlookup j "result"
  pure ⟨tool_call_id, tool_name, result⟩

/-- event.rs `FinishReason`, serde kebab-case string enum. -/
inductive FinishReason where
  | Stop
  | Length
  | ContentFilter
  | ToolCalls
  | Error
  | Other
  | Unknown
deriving DecidableEq, Repr

def deserFinishReason (j : Json) : Option FinishReason :=
  match j with
  | .str s =>
    if s = "stop" then some .Stop
    else if s = "length" then some .Length
    else if s = "content-filter" then some .ContentFilter
    else if s = "tool-calls" then some .ToolCalls
    else if s = "error" then some .Error
    else if s = "other" then some .Other
    else if s = "unknown" then some .Unknown
    else none
  | _ => none

/-- event.rs `ProviderResponse` (camelCase). -/
structure ProviderResponse where
  id : String
  timestamp : DateTimeUtc
  model_id : String
deriving Repr

def deserProviderResponse (j : Json) : Option ProviderResponse := do
  let id ← (jlookup j "id").bind asStr
  let timestamp ← (jlookup j "timestamp").bind deserDateTime
  let model_id ← (jlookup j "modelId").bind asStr
  pure ⟨id, timestamp, model_id⟩

/-- event.rs `StepFinish` (camelCase; `is_continued` is a required bool). -/
structure StepFinish where
  finish_reason : FinishReason
  usage : Usage
  response : ProviderResponse
  is_continued : Bool
deriving Repr

def deserStepFinish (j : Json) : Option StepFinish := do
  let finish_reason ← (jlookup j "finishReason").bind deserFinishReason
  let usage ← (jlookup j "usage").bind deserUsage
  let response ← (jlookup j "response").bind deserProviderResponse
  let is_continued ← (jlookup j "isContinued").bind asBool
  pure ⟨finish_reason, usage, response, is_continued⟩

/-- event.rs `ProviderFinish` (camelCase; here `finish_reason` is a plain
string and `is_continued` optional). -/
structure ProviderFinish where
  finish_reason : String
  usage : Usage
  response : ProviderResponse
  is_continued : Option Bool
deriving Repr

def deserProviderFinish (j : Json) : Option ProviderFinish := do
  let finish_reason ← (jlookup j "finishReason").bind asStr
  let usage ← (jlookup j "usage").bind deserUsage
  let response ← (jlookup j "response").bind deserProviderResponse
  let is_continued ← jlookupOpt j "isContinued" asBool
  pure ⟨finish_reason, usage, response, is_continued⟩

/-- event.rs `ErrorEvent` (camelCase). -/
structure ErrorEvent where
  error_message : String
  error_code : Option String
deriving Repr

def deserErrorEvent (j : Json) : Option ErrorEvent := do
  let error_message ← (jlookup j "errorMessage").bind asStr
  let error_code ← jlookupOpt j "errorCode" asStr
  pure ⟨error_message, error_code⟩

/-- event.rs `ProviderEventType`, serde internally tagged by `type` with
kebab-case variant names. -/
inductive ProviderEventType where
  | TextDelta (e : TextDelta)
  | ToolCall (e : ToolCallEvent)
  | ToolResult (e : ToolResultEvent)
  | StepFinish (e : StepFinish)
  | Finish (e : ProviderFinish)
  | Error (e : ErrorEvent)
deriving Repr

def deserProviderEventType (j : Json) : Option ProviderEventType := do
  let tag ← (jlookup j "type").bind asStr
  if tag = "text-delta" then (deserTextDelta j).map .TextDelta
  else if tag = "tool-call" then (deserToolCallEvent j).map .ToolCall
  else if tag = "tool-result" then (deserToolResultEvent j).map .ToolResult
  else if tag = "step-finish" then (deserStepFinish j).map .StepFinish
  else if tag = "finish" then (deserProviderFinish j).map .Finish
  else if tag = "error" then (deserErrorEvent j).map .Error
  else none

/-- event.rs `ProviderEvent`: a single flattened `event_type` field. -/
structure ProviderEvent where
  event_type : ProviderEventType
deriving Repr

def deserProviderEvent (j : Json) : Option ProviderEvent :=
  (deserProviderEventType j).map (fun t => ⟨t⟩)

/-- event.rs `Event`: the unit delivered to the caller through the channel. -/
inductive Event where
  | LatitudeEvent (e : LatitudeEvent)
  | ProviderEvent (e : ProviderEvent)
  | UnknownEvent
deriving Repr

/-! ## Error model (src/error.rs)

All variants of the crate `Error` enum; payloads coming from external
crates (`reqwest::Error`, `serde_json::Error`) carry no data here. -/

inductive LatitudeErrorCodes where
  | UnexpectedError
  | RateLimitError
  | UnauthorizedError
  | ForbiddenError
  | BadRequestError
  | NotFoundError
  | ConflictError
  | UnprocessableEntityError
deriving DecidableEq, Repr

inductive RunErrorCodes where
  | Unknown
  | DefaultProviderExceededQuota
  | DefaultProviderInvalidModel
  | DocumentConfigError
  | MissingProvider
  | ChainCompileError
  | AIRunError
  | UnsupportedProviderResponseType
  | AIProviderConfigError
  | EvaluationRunMissingProviderLog
  | EvaluationRunMissingWorkspace
  | EvaluationRunUnsupportedResultType
  | EvaluationRunResponseJsonFormat
deriving DecidableEq, Repr

inductive ApiErrorCodes where
  | HTTPException
  | InternalServerError
deriving DecidableEq, Repr

structure RunErrorDetails where
  compile_code : String
  message : String
deriving DecidableEq, Repr

structure DbErrorRef where
  entity_uuid : String
  entity_type : String
deriving DecidableEq, Repr

inductive Error where
  | LatitudeError (c : LatitudeErrorCodes)
  | RunError (c : RunErrorCodes)
  | ApiError (c : ApiErrorCodes)
  | ChainCompileError (d : RunErrorDetails)
  | DatabaseError (r : DbErrorRef)
  | ResponseFormatError (s : String)
  | HttpError
  | SerializationError
  | ConfigError (msg : String)
  | Other (s : String)
deriving DecidableEq, Repr

/-! ## The streaming decode loop (src/lib.rs, `run` lines 299-326 and
`chat` lines 362-388; the two loops are textually identical)

The `async_sse` decoder hands the loop a sequence of items, each either a
decoded SSE message/retry or a transport error.  The loop body classifies
a message frame by its event name, sends the resulting `Event` into the
bounded mpsc channel when classification succeeded, skips retry items, and
breaks out of the loop on a transport error (which ends the background
task, dropping the sender and thereby closing the channel).  `decodeItems`
returns exactly the sequence of events pushed into the channel, in push
order, for a consumer that keeps receiving (tokio mpsc delivers them to
the single receiver in that order). -/

/-- An `async_sse::Event::Message`: event name, data bytes, optional id. -/
structure SseMessage where
  name : String
  data : String
  id : Option String
deriving Repr

/-- An item produced by the `async_sse` decoder stream. -/
inductive SseItem where
  | message (m : SseMessage)
  | retry (ms : Nat)
deriving Repr

/-- A transport-level failure of the underlying byte source (opaque). -/
inductive TransportError where
  | ioError
deriving DecidableEq, Repr

/-- The `match message.name().as_str()` classification of one frame
(lib.rs lines 303-311): recognized names deserialize the payload and wrap
it, any other name yields `UnknownEvent`; a payload that fails to
deserialize is `Error::from(serde_json::Error)`, i.e. `SerializationError`. -/
def classifyFrame (name data : String) : Except Error Event :=
  if name = "latitude-event" then
    match (jsonParse data).bind deserLatitudeEvent with
    | some ev => .ok (.LatitudeEvent ev)
    | none => .error .SerializationError
  else if name = "provider-event" then
    match (jsonParse data).bind deserProviderEvent with
    | some ev => .ok (.ProviderEvent ev)
    | none => .error .SerializationError
  else .ok .UnknownEvent

/-- The decode loop (lib.rs lines 299-326): events sent into the channel,
in order.  `if let Ok(event) = parsed_event` sends only successfully
classified events — an `Err` is skipped without sending anything; retry
items do nothing; a stream error breaks the loop, ending the task. -/
def decodeItems : List (Except TransportError SseItem) → List Event
  | [] => []
  | .ok (.message m) :: rest =>
    match classifyFrame m.name m.data with
    | .ok e => e :: decodeItems rest
    | .error _ => decodeItems rest
  | .ok (.retry _) :: rest => decodeItems rest
  | .error _ :: _ => []

/-- Whether a decoder item is not a transport error. -/
def itemOk : Except TransportError SseItem → Bool
  | .ok _ => true
  | .error _ => false

/-- The single event (if any) the loop body sends for one decoder item. -/
def itemEvent : Except TransportError SseItem → Option Event
  | .ok (.message m) =>
    match classifyFrame m.name m.data with
    | .ok e => some e
    | .error _ => none
  | .ok (.retry _) => none
  | .error _ => none

/-! ## Status check and request orchestration (src/lib.rs)

`run`, `chat`, `get` and `log` all follow the same phase order: resolve
identifiers (returning `ConfigError` synchronously when the project id is
missing, before any request exists), build the URL, send the request,
check the status with `check_status` (`?` returns its error before the
body is touched), then hand the body to the stream decoder or the JSON
parser.  The `prepare` functions below embed the synchronous phase up to
the send: an `Except.error` result is returned to the caller before any
HTTP request is sent and before any stream task is spawned. -/

/-- lib.rs `check_status` (lines 475-494): reqwest status constants are the
numeric codes 429, 401, 403, 400, 404, 409, 422; every other status falls
through to `Ok(())`. -/
def check_status (status : Nat) : Except Error Unit :=
  if status = 429 then .error (.LatitudeError .RateLimitError)
  else if status = 401 then .error (.LatitudeError .UnauthorizedError)
  else if status = 403 then .error (.LatitudeError .ForbiddenError)
  else if status = 400 then .error (.LatitudeError .BadRequestError)
  else if status = 404 then .error (.LatitudeError .NotFoundError)
  else if status = 409 then .error (.LatitudeError .ConflictError)
  else if status = 422 then .error (.LatitudeError .UnprocessableEntityError)
  else .ok ()

/-- models/options.rs `Options`. -/
structure Options where
  version_id : Option String
  project_id : Option Nat
deriving DecidableEq, Repr

/-- The configuration fields of lib.rs `Client` (the embedded reqwest HTTP
client is the external transport and carries no decision logic). -/
structure Client where
  api_key : String
  project_id : Option Nat
  version_id : Option String
  base_url : String
deriving DecidableEq, Repr

/-- models/document.rs `RunDocument<T>`. -/
structure RunDocument (T : Type) where
  path : String
  parameters : Option T
  stream : Bool
  options : Option Options

/-- message.rs `Content` (field `type_field` is wire name `type`). -/
structure MessageContent where
  type_field : String
  text : String
deriving DecidableEq, Repr

/-- message.rs `Message` (the chat-side message shape, distinct from the
event.rs `Message`). -/
structure ChatMessage where
  role : Role
  content : List MessageContent
deriving DecidableEq, Repr

/-- models/chat.rs `Chat`. -/
structure Chat where
  messages : List ChatMessage
  conversation_id : String
  stream : Bool
deriving DecidableEq, Repr

/-- models/log.rs `Log`. -/
structure Log where
  path : String
  messages : List ChatMessage
  response : String
  options : Option Options
deriving DecidableEq, Repr

/-- Project id resolution shared by `run`, `get` and `log`:
`options.and_then(|o| o.project_id).or(self.project_id)`. -/
def resolve_project_id (options : Option Options) (client_project_id : Option Nat) :
    Option Nat :=
  (options.bind Options.project_id).or client_project_id

/-- Version id resolution shared by `run`, `get` and `log`:
`options.and_then(|o| o.version_id).or(self.version_id).unwrap_or("live")`. -/
def resolve_version_id (options : Option Options) (client_version_id : Option String) :
    String :=
  ((options.bind Options.version_id).or client_version_id).getD "live"

/-- The POST request `run` is about to send, with the flag that selects the
streaming path afterwards. -/
structure PreparedRun where
  url : String
  stream : Bool
deriving DecidableEq, Repr

/-- lib.rs `run` (lines 265-284) up to `self.client.post(&url)`: the `?` on
`ok_or_else` returns `ConfigError` to the caller before the request is
built, so on error no network call is made and no stream task is spawned. -/
def run_prepare {T : Type} (c : Client) (document : RunDocument T) :
    Except Error PreparedRun :=
  match resolve_project_id document.options c.project_id with
  | none => .error (.ConfigError "Project ID is required")
  | some project_id =>
    let version_id := resolve_version_id document.options c.version_id
    .ok ⟨c.base_url ++ "/projects/" ++ toString project_id ++ "/versions/"
          ++ version_id ++ "/documents/run", document.stream⟩

/-- lib.rs `get` (lines 400-418) up to `self.client.get(&url)`. -/
def get_prepare (c : Client) (path : String) (options : Option Options) :
    Except Error String :=
  match resolve_project_id options c.project_id with
  | none => .error (.ConfigError "Project ID is required")
  | some project_id =>
    let version_id := resolve_version_id options c.version_id
    .ok (c.base_url ++ "/projects/" ++ toString project_id ++ "/versions/"
          ++ version_id ++ "/documents/" ++ path)

/-- lib.rs `log` (lines 425-445) up to `self.client.post(&url)`. -/
def log_prepare (c : Client) (log : Log) : Except Error String :=
  match resolve_project_id log.options c.project_id with
  | none => .error (.ConfigError "Project ID is required")
  | some project_id =>
    let version_id := resolve_version_id log.options c.version_id
    .ok (c.base_url ++ "/projects/" ++ toString project_id ++ "/versions/"
          ++ version_id ++ "/documents/logs")

/-- How a call to `chat` starts: reaching the `unimplemented!()` macro (a
panic) or proceeding to build and send the POST request. -/
inductive ChatStart where
  | panicked
  | request (url : String)
deriving DecidableEq, Repr

/-- lib.rs `chat` (lines 338-346): `if !chat.stream { unimplemented!() }`
runs before the URL is built, so every non-streaming call panics before
any request exists; only streaming calls reach the request. -/
def chat_prepare (c : Client) (chat : Chat) : ChatStart :=
  if !chat.stream then .panicked
  else .request (c.base_url ++ "/conversations/" ++ chat.conversation_id ++ "/chat")

/-! ## SSE frame reader (spec sections 3, 4.1)

Modelled from the spec: the SSE Frame Reader is the `async_sse` crate
consumed by `run`/`chat`, an external dependency whose source is not part
of this repository, so it is built here from the algorithm in spec
section 4.1: maintain a line-accumulation buffer; accumulate `event:` /
`data:` / `id:` / `retry:` prefixed lines into a pending frame; a blank
line flushes the pending frame, joining multiple `data:` lines with
newlines; partial lines spanning chunk boundaries stay buffered until a
newline arrives; comment lines starting with `:` are ignored. -/

/-- Modelled from the spec: a Frame per spec section 3 — event name
defaulting to `"message"`, optional data (absent for pure retry frames),
optional id and retry hint. -/
structure Frame where
  event_name : String
  data : Option String
  id : Option String
  retry_ms : Option Nat
deriving DecidableEq, Repr

/-- Modelled from the spec: reader state — the partial-line buffer and the
fields of the pending frame accumulated since the last blank line. -/
structure ReaderState where
  line : List Char
  pending_name : Option String
  pending_data : Option String
  pending_id : Option String
  pending_retry : Option Nat
deriving DecidableEq, Repr

def initReader : ReaderState := ⟨[], none, none, none, none⟩

/-- Split a line at its first colon into field name and raw value. -/
def splitColon : List Char → Option (List Char × List Char)
  | [] => none
  | c :: cs =>
    if c = ':' then some ([], cs)
    else (splitColon cs).map (fun p => (c :: p.1, p.2))

/-- An SSE field value: the text after the colon, minus one leading space. -/
def fieldValue (cs : List Char) : String :=
  match cs with
  | ' ' :: rest => String.mk rest
  | rest => String.mk rest

def parseNatDigits (cs : List Char) : Option Nat :=
  match cs with
  | [] => none
  | _ => if allDigits cs then some (digitsToNat cs) else none

/-- Modelled from the spec: process one complete line.  A blank line
flushes the pending frame (emitting nothing when no field was seen, per
the blank-line-terminated-block framing of spec section 3); a comment line
is ignored; `event`, `data`, `id` and `retry` lines update the pending
frame, `data` lines joining with newlines; other lines are ignored. -/
def applyLine (st : ReaderState) (line : List Char) : ReaderState × Option Frame :=
  match line with
  | [] =>
    if st.pending_name = none ∧ st.pending_data = none
        ∧ st.pending_id = none ∧ st.pending_retry = none then
      (st, none)
    else
      (initReader,
        some ⟨st.pending_name.getD "message", st.pending_data,
              st.pending_id, st.pending_retry⟩)
  | c :: cs =>
    if c = ':' then (st, none)
    else
      match splitColon (c :: cs) with
      | none => (st, none)
      | some (f, rawValue) =>
        let field := String.mk f
        let v := fieldValue rawValue
        if field = "event" then ({ st with pending_name := some v }, none)
        else if field = "data" then
          let joined :=
            match st.pending_data with
            | none => v
            | some d => d ++ "\n" ++ v
          ({ st with pending_data := some joined }, none)
        else if field = "id" then ({ st with pending_id := some v }, none)
        else if field = "retry" then
          match parseNatDigits v.data with
          | some n => ({ st with pending_retry := some n }, none)
          | none => (st, none)
        else (st, none)

/-- Modelled from the spec: feed one byte to the reader — a newline
completes the buffered line and processes it, any other byte is buffered. -/
def feedChar (acc : ReaderState × List Frame) (c : Char) : ReaderState × List Frame :=
  let (st, fs) := acc
  if c = '\n' then
    let (st2, fr) := applyLine { st with line := [] } st.line
    (st2, fs ++ fr.toList)
  else ({ st with line := st.line ++ [c] }, fs)

/-- Modelled from the spec: feed one chunk of bytes. -/
def feedChunk (acc : ReaderState × List Frame) (chunk : List Char) :
    ReaderState × List Frame :=
  chunk.foldl feedChar acc

/-- Modelled from the spec: the ordered frame sequence produced after
feeding a list of chunks (arbitrary chunk boundaries). -/
def readFrames (chunks : List (List Char)) : List Frame :=
  (chunks.foldl feedChunk (initReader, [])).2

/-! ## Theorems for the claims -/

/-- Claim C1, counterexample: a frame named `latitude-event` whose payload
fails to deserialize (here the non-JSON text `invalid-format`) produces NO
event in the output channel — the claim says exactly one `UnknownEvent`
would be emitted, but the `if let Ok(event) = parsed_event` in the loop
body skips the send entirely when classification returned an error. -/
theorem C1_counterexample :
    classifyFrame "latitude-event" "invalid-format" = .error .SerializationError
    ∧ decodeItems [.ok (.message ⟨"latitude-event", "invalid-format", none⟩)]
        = ([] : List Event) := by
  constructor
  · set_option maxRecDepth 100000 in rfl
  · set_option maxRecDepth 100000 in rfl

/-- Claim C1, amended: for a frame named `latitude-event` or
`provider-event` whose payload fails to deserialize, the decode loop emits
no event for that frame — it is silently dropped; the loop is not broken
(subsequent frames are still delivered) and no error reaches the caller
through the channel. -/
theorem C1_parse_failure_silently_dropped :
    ∀ (name data : String) (rest : List (Except TransportError SseItem)),
      (name = "latitude-event" ∨ name = "provider-event") →
      classifyFrame name data = .error .SerializationError →
      decodeItems (.ok (.message ⟨name, data, none⟩) :: rest) = decodeItems rest := by
  intro name data rest _recognized hc
  simp [decodeItems, hc]

set_option maxRecDepth 100000 in
/-- Witness for C1: the unparseable `latitude-event` frame contributes
nothing, while the following frame is still delivered. -/
theorem C1_witness :
    decodeItems [.ok (.message ⟨"latitude-event", "invalid-format", none⟩),
                 .ok (.message ⟨"unknown-name", "x", none⟩)]
      = decodeItems [.ok (.message ⟨"unknown-name", "x", none⟩)] :=
  C1_parse_failure_silently_dropped "latitude-event" "invalid-format"
    [.ok (.message ⟨"unknown-name", "x", none⟩)] (Or.inl rfl) rfl

/-- Claim C2: a `latitude-event` frame whose JSON payload has discriminant
`type = "chain-step"` decodes to `Event.LatitudeEvent` with the
`ChainStep` variant whose `is_last_step`, `config`, `messages` and `uuid`
come from the camelCase wire fields `isLastStep`, `config`, `messages`
and `uuid` (the latter parsed as a UUID); and the `provider-event` frame
with payload `type = "text-delta"`, `textDelta = "running"` decodes to
`Event.ProviderEvent` with `TextDelta` carrying `"running"`. -/
theorem C2_chain_step_and_text_delta :
    (∀ (data : String) (j : Json) (b : Bool) (jc : Json) (cfg : Config)
        (jm : Json) (ms : List Message) (su : String) (u : Uuid)
        (rest : List (Except TransportError SseItem)),
      jsonParse data = some j →
      jlookup j "type" = some (.str "chain-step") →
      jlookup j "isLastStep" = some (.bool b) →
      jlookup j "config" = some jc → deserConfig jc = some cfg →
      jlookup j "messages" = some jm → deserMessages jm = some ms →
      jlookup j "uuid" = some (.str su) → parse_uuid su = some u →
      classifyFrame "latitude-event" data
        = .ok (.LatitudeEvent ⟨.ChainStep ⟨b, cfg, ms, u⟩⟩)
      ∧ decodeItems (.ok (.message ⟨"latitude-event", data, none⟩) :: rest)
          = Event.LatitudeEvent ⟨.ChainStep ⟨b, cfg, ms, u⟩⟩ :: decodeItems rest)
    ∧ decodeItems [.ok (.message ⟨"provider-event",
        "\x7b\"type\":\"text-delta\",\"textDelta\":\"running\"\x7d", none⟩)]
        = [Event.ProviderEvent ⟨.TextDelta ⟨"running"⟩⟩] := by
  constructor
  · intro data j b jc cfg jm ms su u rest hp ht hb hjc hcfg hjm hms hsu hpu
    have hcl : classifyFrame "latitude-event" data
        = .ok (.LatitudeEvent ⟨.ChainStep ⟨b, cfg, ms, u⟩⟩) := by
      simp [classifyFrame, hp, deserLatitudeEvent, deserLatitudeEventType, ht, asStr,
        deserChainStep, hb, asBool, hjc, hcfg, hjm, hms, hsu, hpu]
    exact ⟨hcl, by simp [decodeItems, hcl]⟩
  · set_option maxRecDepth 100000 in rfl

set_option maxRecDepth 1000000 in
/-- Witness for C2: the end-to-end chain-step payload of the repository
test suite decodes to the corresponding `ChainStep` event. -/
theorem C2_witness :
    decodeItems [.ok (.message ⟨"latitude-event",
        "\x7b\"type\":\"chain-step\",\"isLastStep\":true,\"config\":\x7b\"provider\":\"Latitude\",\"model\":\"gpt-4o-mini\"\x7d,\"messages\":[\x7b\"role\":\"system\",\"content\":\"Generate a joke\"\x7d],\"uuid\":\"58e86f35-293c-4f12-a412-9915cb385850\"\x7d",
        none⟩)]
      = [Event.LatitudeEvent ⟨.ChainStep ⟨true, ⟨"Latitude", "gpt-4o-mini"⟩,
          [⟨.System, none, "Generate a joke"⟩], 0x58e86f35293c4f12a4129915cb385850⟩⟩] :=
  (C2_chain_step_and_text_delta.1
    "\x7b\"type\":\"chain-step\",\"isLastStep\":true,\"config\":\x7b\"provider\":\"Latitude\",\"model\":\"gpt-4o-mini\"\x7d,\"messages\":[\x7b\"role\":\"system\",\"content\":\"Generate a joke\"\x7d],\"uuid\":\"58e86f35-293c-4f12-a412-9915cb385850\"\x7d"
    (Json.obj [("type", Json.str "chain-step"), ("isLastStep", Json.bool true),
      ("config", Json.obj [("provider", Json.str "Latitude"), ("model", Json.str "gpt-4o-mini")]),
      ("messages", Json.arr [Json.obj [("role", Json.str "system"), ("content", Json.str "Generate a joke")]]),
      ("uuid", Json.str "58e86f35-293c-4f12-a412-9915cb385850")])
    true
    (Json.obj [("provider", Json.str "Latitude"), ("model", Json.str "gpt-4o-mini")])
    ⟨"Latitude", "gpt-4o-mini"⟩
    (Json.arr [Json.obj [("role", Json.str "system"), ("content", Json.str "Generate a joke")]])
    [⟨.System, none, "Generate a joke"⟩]
    "58e86f35-293c-4f12-a412-9915cb385850"
    0x58e86f35293c4f12a4129915cb385850
    [] rfl rfl rfl rfl rfl rfl rfl rfl rfl).2

/-- Claim C3: a frame whose event name is neither `latitude-event` nor
`provider-event` — including the default name `message` used when no
`event:` line is present, and regardless of whether the payload is valid
JSON — classifies to `UnknownEvent`, and the loop delivers exactly that
event for the frame. -/
theorem C3_other_names_unknown_event :
    ∀ (name data : String) (rest : List (Except TransportError SseItem)),
      name ≠ "latitude-event" → name ≠ "provider-event" →
      classifyFrame name data = .ok .UnknownEvent
      ∧ decodeItems (.ok (.message ⟨name, data, none⟩) :: rest)
          = .UnknownEvent :: decodeItems rest := by
  intro name data rest h1 h2
  have hc : classifyFrame name data = .ok .UnknownEvent := by
    simp [classifyFrame, h1, h2]
  exact ⟨hc, by simp [decodeItems, hc]⟩

set_option maxRecDepth 100000 in
/-- Witness for C3: the default-named frame carrying the non-JSON text
`invalid-format` (end-to-end scenario D) yields `UnknownEvent`. -/
theorem C3_witness :
    decodeItems [.ok (.message ⟨"message", "invalid-format", none⟩)]
      = [Event.UnknownEvent] :=
  (C3_other_names_unknown_event "message" "invalid-format" []
    (by decide) (by decide)).2

/-- Claim C4, counterexample: status 500 is not a 2xx success, yet
`check_status` accepts it, so the response body of a 500 reply IS handed
to the decoder / JSON parser — the claim that `check_status` returns `Err`
for every non-2xx status is false. -/
theorem C4_counterexample :
    check_status 500 = Except.ok () ∧ ¬(200 ≤ 500 ∧ 500 ≤ 299) :=
  ⟨rfl, by decide⟩

/-- Claim C4, amended: `check_status` returns `Err` exactly for the seven
statuses 400, 401, 403, 404, 409, 422 and 429 (for which `run`/`chat`
return the error before the body is decoded); every other status —
including every 2xx success, but also non-2xx statuses such as 500 —
passes the check. -/
theorem C4_check_status_exact_errors :
    ∀ status : Nat,
      ((∃ e, check_status status = .error e) ↔
        (status = 400 ∨ status = 401 ∨ status = 403 ∨ status = 404
          ∨ status = 409 ∨ status = 422 ∨ status = 429))
      ∧ (200 ≤ status → status ≤ 299 → check_status status = .ok ()) := by
  intro s
  constructor
  · constructor
    · rintro ⟨e, he⟩
      by_contra hn
      push_neg at hn
      obtain ⟨h1, h2, h3, h4, h5, h6, h7⟩ := hn
      simp [check_status, h1, h2, h3, h4, h5, h6, h7] at he
    · rintro (h | h | h | h | h | h | h) <;> subst h <;> exact ⟨_, rfl⟩
  · intro hlo hhi
    have h1 : s ≠ 400 := by omega
    have h2 : s ≠ 401 := by omega
    have h3 : s ≠ 403 := by omega
    have h4 : s ≠ 404 := by omega
    have h5 : s ≠ 409 := by omega
    have h6 : s ≠ 422 := by omega
    have h7 : s ≠ 429 := by omega
    simp [check_status, h1, h2, h3, h4, h5, h6, h7]

/-- Witness for C4: 429 is rejected, 200 passes. -/
theorem C4_witness :
    (∃ e, check_status 429 = Except.error e) ∧ check_status 200 = Except.ok () :=
  ⟨(C4_check_status_exact_errors 429).1.mpr (by simp),
   (C4_check_status_exact_errors 200).2 (by decide) (by decide)⟩

/-- Claim C5: a transport error from the byte source / SSE decoder breaks
the loop, so everything after it contributes nothing and the delivered
sequence is exactly the one produced before the error; the background
task then ends, dropping the sender, which closes the channel so the
consumer read loop terminates.  The output has type `List Event`, so no
error value can travel through the channel: the caller only observes the
shorter sequence. -/
theorem C5_transport_error_ends_sequence :
    ∀ (e : TransportError) (pre post : List (Except TransportError SseItem)),
      decodeItems (pre ++ .error e :: post) = decodeItems pre := by
  intro e pre post
  induction pre with
  | nil => rfl
  | cons x rest ih =>
    cases x with
    | error e2 => rfl
    | ok i =>
      cases i with
      | message m =>
        cases h : classifyFrame m.name m.data with
        | ok ev => simp [decodeItems, h, ih]
        | error err => simp [decodeItems, h, ih]
      | retry r => simp [decodeItems, ih]

/-- Claim C6: the delivered event sequence is the order-preserving image
of the parsed item sequence — each item up to the first transport error
contributes its own event (or nothing) in place, with no reordering and
no batching: `decodeItems` is exactly a `filterMap` of the per-item
classification over the prefix of intact items. -/
theorem C6_events_in_frame_order :
    ∀ items : List (Except TransportError SseItem),
      decodeItems items = (items.takeWhile itemOk).filterMap itemEvent := by
  intro items
  induction items with
  | nil => rfl
  | cons x rest ih =>
    cases x with
    | error e => simp [decodeItems, List.takeWhile, itemOk, List.filterMap]
    | ok i =>
      cases i with
      | message m =>
        cases h : classifyFrame m.name m.data with
        | ok e => simp [decodeItems, List.takeWhile, List.filterMap, itemOk, itemEvent, h, ih]
        | error err => simp [decodeItems, List.takeWhile, List.filterMap, itemOk, itemEvent, h, ih]
      | retry r => simp [decodeItems, List.takeWhile, List.filterMap, itemOk, itemEvent, ih]

/-- Claim C7: a pure retry item (the reconnection hint surfaced distinctly
by the SSE decoder) makes the loop body do nothing: wherever it occurs in
the stream, the delivered event sequence is the same as without it. -/
theorem C7_retry_frames_emit_nothing :
    ∀ (pre : List (Except TransportError SseItem)) (r : Nat)
      (post : List (Except TransportError SseItem)),
      decodeItems (pre ++ .ok (.retry r) :: post) = decodeItems (pre ++ post) := by
  intro pre r post
  induction pre with
  | nil => rfl
  | cons x rest ih =>
    cases x with
    | error e => rfl
    | ok i =>
      cases i with
      | message m =>
        cases h : classifyFrame m.name m.data with
        | ok ev => simp [decodeItems, h, ih]
        | error err => simp [decodeItems, h, ih]
      | retry r2 => simp [decodeItems, ih]

/-- Claim C8: when neither the per-call options nor the client
configuration supplies a project id, `run`, `get` and `log` all fail
synchronously with `ConfigError "Project ID is required"`: the prepare
phase returns the error instead of a request, so no HTTP request is built
or sent and no stream task is spawned. -/
theorem C8_missing_project_id_fails_sync :
    ∀ (c : Client) (T : Type) (d : RunDocument T) (path : String)
      (opts : Option Options) (lg : Log),
      c.project_id = none →
      d.options.bind Options.project_id = none →
      opts.bind Options.project_id = none →
      lg.options.bind Options.project_id = none →
      run_prepare c d = .error (.ConfigError "Project ID is required")
      ∧ get_prepare c path opts = .error (.ConfigError "Project ID is required")
      ∧ log_prepare c lg = .error (.ConfigError "Project ID is required") := by
  intro c T d path opts lg hc hd ho hl
  refine ⟨?_, ?_, ?_⟩ <;>
    simp [run_prepare, get_prepare, log_prepare, resolve_project_id,
      hc, hd, ho, hl, Option.or]

/-- Witness for C8: a client built with no project id and calls passing no
options all fail with the configuration error. -/
theorem C8_witness :
    run_prepare ⟨"key", none, none, "https://example"⟩
        (⟨"doc-path", none, true, none⟩ : RunDocument Unit)
      = Except.error (Error.ConfigError "Project ID is required")
    ∧ get_prepare ⟨"key", none, none, "https://example"⟩ "doc-path" none
      = Except.error (Error.ConfigError "Project ID is required")
    ∧ log_prepare ⟨"key", none, none, "https://example"⟩ ⟨"doc-path", [], "resp", none⟩
      = Except.error (Error.ConfigError "Project ID is required") :=
  C8_missing_project_id_fails_sync ⟨"key", none, none, "https://example"⟩ Unit
    ⟨"doc-path", none, true, none⟩ "doc-path" none ⟨"doc-path", [], "resp", none⟩
    rfl rfl rfl rfl

/-- Claim C9: the frame reader is chunk-boundary independent — feeding the
byte stream in arbitrarily split chunks yields the same ordered frame
sequence as feeding the concatenation as a single chunk.  (The reader is
modelled from the spec, section 4.1; the implementation is the external
`async_sse` crate.) -/
theorem C9_chunk_boundary_independence :
    ∀ chunks : List (List Char), readFrames chunks = readFrames [chunks.flatten] := by
  intro chunks
  have key : ∀ (cs : List (List Char)) (acc : ReaderState × List Frame),
      cs.foldl feedChunk acc = feedChunk acc cs.flatten := by
    intro cs
    induction cs with
    | nil => intro acc; rfl
    | cons c rest ih =>
      intro acc
      rw [List.foldl_cons, ih, List.flatten_cons]
      simp [feedChunk, List.foldl_append]
  simp [readFrames, key]

/-- Claim C10: `chat` reaches the `unimplemented!()` panic exactly when
`chat.stream` is false — the check precedes the URL construction, so the
non-streaming path never builds a request, and `chat` proceeds normally
only for streaming requests. -/
theorem C10_nonstreaming_chat_panics :
    ∀ (c : Client) (ch : Chat),
      chat_prepare c ch = .panicked ↔ ch.stream = false := by
  intro c ch
  cases h : ch.stream <;> simp [chat_prepare, h]

end Latitude
